import Mathlib

/-!
Verification of the board state and transition engine of a single-user sales
pipeline application (React and TypeScript frontend over Supabase).

The embedding below follows the source files:
  src/types/stage.ts                         (stage registry)
  src/types/deal.ts                          (deal record shape)
  src/components/pipeline/PipelineBoard.tsx  (store, transition engine, aggregates)
  src/components/pipeline/StageColumn.tsx    (per-stage totals, drop handler)
  src/components/pipeline/DealCard.tsx       (drag payload, stage dropdown)

Modelling conventions: ISO-8601 timestamp strings are represented by their
epoch-millisecond values as integers, since every computation in the source
goes through Date.getTime on them; JavaScript numbers used for deal amounts
are represented by rationals, so sums are exact; asynchronous calls to the
persistence service are represented by passing the outcome of the call
(success or failure, and the rows a reload returns) as an explicit argument.
-/

namespace SalesPipeline

/-- The TypeScript type StageId from src/types/stage.ts: the union of the
seven literal stage ids occurring in STAGES. A well-typed caller can pass no
other value, so stage ids outside the registry are unrepresentable. -/
inductive StageId where
  | suspect
  | prospect
  | afspraak
  | voorstel
  | volgende
  | decision
  | won
deriving DecidableEq, Repr

/-- A pipeline stage, from the Stage interface in src/types/stage.ts. -/
structure Stage where
  id : StageId
  name : String
  position : Nat
  colorClass : String
deriving DecidableEq, Repr

/-- The hardcoded stage registry STAGES from src/types/stage.ts. -/
def STAGES : List Stage :=
  [⟨StageId.suspect, "Suspect", 1, "stage-suspect"⟩,
   ⟨StageId.prospect, "Prospect", 2, "stage-prospect"⟩,
   ⟨StageId.afspraak, "Afspraak", 3, "stage-afspraak"⟩,
   ⟨StageId.voorstel, "Voorstel", 4, "stage-voorstel"⟩,
   ⟨StageId.volgende, "Volgende ronde", 5, "stage-volgende"⟩,
   ⟨StageId.decision, "Decision making", 6, "stage-decision"⟩,
   ⟨StageId.won, "Won", 7, "stage-won"⟩]

/-- The DealType union from src/types/deal.ts. -/
inductive DealType where
  | klant
  | partner
deriving DecidableEq, Repr

/-- A prospect sub-record, from the DealProspect interface in
src/types/deal.ts. -/
structure DealProspect where
  id : String
  deal_id : String
  name : String
  notes : Option String
  created_at : Int
deriving DecidableEq, Repr

/-- A deal, from the Deal interface in src/types/deal.ts. The amount field is
optional (null means value not yet known); timestamps are epoch
milliseconds. -/
structure Deal where
  id : String
  user_id : String
  stage_id : StageId
  organization : String
  deal_type : DealType
  amount : Option ℚ
  next_action_at : Option Int
  notes : Option String
  company_url : Option String
  contact_url : Option String
  last_activity_at : Int
  created_at : Int
  prospects : List DealProspect
deriving DecidableEq, Repr

/-- The payload of the update issued to the persistence service by
handleStageChange in PipelineBoard.tsx: the deal id targeted by the eq filter
and the two updated columns. -/
structure WriteReq where
  dealId : String
  stage_id : StageId
  last_activity_at : Int
deriving DecidableEq, Repr

/-- The optimistic phase of handleStageChange (PipelineBoard.tsx lines 89 to
96): setDeals maps over the previous store, replacing the two fields of every
deal whose id matches. The argument t is the clock value read by the updater
(new Date in the map callback). -/
def optimisticUpdate (store : List Deal) (dealId : String) (newStageId : StageId)
    (t : Int) : List Deal :=
  store.map fun deal =>
    if deal.id = dealId then
      { deal with stage_id := newStageId, last_activity_at := t }
    else deal

/-- The effect of fetchDeals (PipelineBoard.tsx lines 23 to 39) on the deal
store: on success the store becomes the fetched rows with null coerced to the
empty list (setDeals of data or empty); on a fetch error the store is left
untouched (only the error message state changes). -/
def applyFetch (store : List Deal)
    (result : Except String (Option (List Deal))) : List Deal :=
  match result with
  | Except.ok rows => rows.getD []
  | Except.error _ => store

/-- handleStageChange (PipelineBoard.tsx lines 88 to 111): unconditionally
apply the optimistic update with clock value tOpt, unconditionally issue one
persistence write carrying the new stage id and a second clock reading tWrite,
and on write failure run fetchDeals with outcome reloadOutcome. Returns the
final deal store and the list of issued writes. -/
def changeStage (store : List Deal) (dealId : String) (newStageId : StageId)
    (tOpt tWrite : Int) (writeResult : Except String Unit)
    (reloadOutcome : Except String (Option (List Deal))) :
    List Deal × List WriteReq :=
  let optimistic := optimisticUpdate store dealId newStageId tOpt
  let writes := [⟨dealId, newStageId, tWrite⟩]
  match writeResult with
  | Except.ok _ => (optimistic, writes)
  | Except.error _ => (applyFetch optimistic reloadOutcome, writes)

/-- One changeStage invocation together with the environment it observes: the
two clock readings and the outcomes of the write and of the reload that runs
if the write fails. -/
structure ChangeCall where
  dealId : String
  newStageId : StageId
  tOpt : Int
  tWrite : Int
  writeResult : Except String Unit
  reloadOutcome : Except String (Option (List Deal))

/-- The deal store resulting from one changeStage call. -/
def applyCall (store : List Deal) (c : ChangeCall) : List Deal :=
  (changeStage store c.dealId c.newStageId c.tOpt c.tWrite c.writeResult
    c.reloadOutcome).1

/-- The deal store after a sequence of changeStage calls. -/
def runCalls (store : List Deal) (calls : List ChangeCall) : List Deal :=
  calls.foldl applyCall store

/-- deal.amount with null contributing 0, the pattern (deal.amount ?? 0) used
by every value aggregate in the source. -/
def amountOrZero (d : Deal) : ℚ :=
  d.amount.getD 0

/-- String.includes of JavaScript on character lists: the needle occurs as a
contiguous substring of the haystack. -/
def includesSub (hay needle : List Char) : Bool :=
  decide (needle <:+: hay)

/-- The search filter (PipelineBoard.tsx lines 186 to 191): a nonempty query
(JavaScript string truthiness) keeps the deals whose lowercased organization
contains the lowercased query as a substring; the empty query leaves the list
untouched. -/
def filteredDeals (store : List Deal) (query : List Char) : List Deal :=
  if query = [] then store
  else
    store.filter fun d =>
      includesSub (d.organization.toList.map Char.toLower) (query.map Char.toLower)

/-- Per-stage grouping (PipelineBoard.tsx lines 194 to 200): the deals of one
stage, in store order. -/
def dealsByStage (store : List Deal) (s : StageId) : List Deal :=
  store.filter fun d => d.stage_id == s

/-- The totalValue reduce of StageColumn.tsx line 17 over the deals of one
column. -/
def totalValue (columnDeals : List Deal) : ℚ :=
  columnDeals.foldl (fun sum d => sum + amountOrZero d) 0

/-- pipelineValue (PipelineBoard.tsx lines 214 to 216): sum of amounts over
the deals not in the won stage. -/
def pipelineValue (store : List Deal) : ℚ :=
  (store.filter fun d => !(d.stage_id == StageId.won)).foldl
    (fun sum d => sum + amountOrZero d) 0

/-- wonValue (PipelineBoard.tsx lines 219 to 221): sum of amounts over the
deals in the won stage. -/
def wonValue (store : List Deal) : ℚ :=
  (store.filter fun d => d.stage_id == StageId.won).foldl
    (fun sum d => sum + amountOrZero d) 0

/-- totalDeals (PipelineBoard.tsx line 203): the number of deals not in the
won stage. -/
def totalDeals (store : List Deal) : Nat :=
  (store.filter fun d => !(d.stage_id == StageId.won)).length

/-- The number of deals in one stage. -/
def stageCount (store : List Deal) (s : StageId) : Nat :=
  (store.filter fun d => d.stage_id == s).length

/-- JavaScript Math.round: the floor of x plus one half (halves round toward
positive infinity). -/
def jsRound (x : ℚ) : Int :=
  ⌊x + 1 / 2⌋

/-- The stages shown in the funnel: STAGES without the won stage
(PipelineBoard.tsx line 204). -/
def nonWonStages : List Stage :=
  STAGES.filter fun st => !(st.id == StageId.won)

/-- One funnel entry (PipelineBoard.tsx lines 204 to 211). -/
structure FunnelEntry where
  id : StageId
  name : String
  count : Nat
  percentage : Int
deriving DecidableEq, Repr

/-- funnelData (PipelineBoard.tsx lines 203 to 211): for each non-won stage,
its deal count and Math.round of count over totalDeals times 100, or 0 when
there are no non-won deals. -/
def funnelData (store : List Deal) : List FunnelEntry :=
  nonWonStages.map fun st =>
    { id := st.id
      name := st.name
      count := stageCount store st.id
      percentage :=
        if 0 < totalDeals store then
          jsRound ((stageCount store st.id : ℚ) / (totalDeals store : ℚ) * 100)
        else 0 }

/-- Milliseconds in a day, the divisor 1000 times 60 times 60 times 24 in
PipelineBoard.tsx line 238. -/
def msPerDay : Int := 86400000

/-- The stale predicate of PipelineBoard.tsx lines 234 to 240: a deal not in
the won stage whose Math.floor of (now minus last activity) over a day is at
least 14. Int.fdiv is floor division, matching Math.floor of a real
quotient. -/
def isStale (now : Int) (d : Deal) : Bool :=
  if d.stage_id = StageId.won then false
  else decide (14 ≤ (now - d.last_activity_at).fdiv msPerDay)

/-- staleDeals (PipelineBoard.tsx lines 234 to 240). -/
def staleDeals (store : List Deal) (now : Int) : List Deal :=
  store.filter (isStale now)

/-- The drag payload set by handleDragStart in DealCard.tsx: the dataTransfer
entries dealId and fromStage. -/
structure DragPayload where
  dealId : String
  fromStage : StageId
deriving DecidableEq, Repr

/-- handleDragStart (DealCard.tsx lines 18 to 23): the payload carries the
dragged deal id and its current stage. -/
def handleDragStart (d : Deal) : DragPayload :=
  ⟨d.id, d.stage_id⟩

/-- handleDrop of StageColumn.tsx lines 41 to 51 for the column of stage
target: the list of (dealId, newStageId) calls made to onStageChange, which is
handleStageChange of PipelineBoard. The call happens only when the payload
dealId is truthy (nonempty) and the source stage differs from the column
stage. -/
def handleDrop (payload : DragPayload) (target : StageId) :
    List (String × StageId) :=
  if payload.dealId ≠ "" ∧ payload.fromStage ≠ target then
    [(payload.dealId, target)]
  else []

/-- The stage dropdown handler of DealCard.tsx lines 83 to 88: calls
onStageChange only when the chosen stage differs from the current one. -/
def cardStageSelect (d : Deal) (newStageId : StageId) : List (String × StageId) :=
  if newStageId ≠ d.stage_id then [(d.id, newStageId)] else []

/-- Example deal in the suspect stage. -/
def exD : Deal :=
  ⟨"d1", "u1", StageId.suspect, "ACME", DealType.klant, none, none, none,
   none, none, 0, 0, []⟩

/-- Second example deal, in the prospect stage. -/
def exD2 : Deal :=
  ⟨"d2", "u1", StageId.prospect, "Globex", DealType.partner, some 5, none,
   none, none, none, 0, 0, []⟩

/-- Example deal with organization ACME Corp, for the search claims. -/
def exAcmeCorp : Deal :=
  ⟨"d3", "u1", StageId.suspect, "ACME Corp", DealType.klant, none, none,
   none, none, none, 0, 0, []⟩

/-- A deal with a given id, stage and last activity time, all other fields
fixed; used to build concrete stores. -/
def mkDeal (i : String) (s : StageId) (t : Int) : Deal :=
  ⟨i, "u1", s, "Org", DealType.klant, none, none, none, none, none, t, 0, []⟩

/-- Six deals, one in each non-won stage: the funnel percentages are then six
times Math.round of 100 over 6. -/
def ex6 : List Deal :=
  [mkDeal "d1" StageId.suspect 0, mkDeal "d2" StageId.prospect 0,
   mkDeal "d3" StageId.afspraak 0, mkDeal "d4" StageId.voorstel 0,
   mkDeal "d5" StageId.volgende 0, mkDeal "d6" StageId.decision 0]

/-- A non-won deal whose last activity is 15 whole days before the example
clock value exNow. -/
def exStale15 : Deal :=
  mkDeal "s1" StageId.suspect 0

/-- A deal identical to exStale15 except for its id and for being in the won
stage. -/
def exStaleWon : Deal :=
  mkDeal "s2" StageId.won 0

/-- Example clock value: 15 days after epoch. -/
def exNow : Int := 15 * msPerDay

/-- Example changeStage call with a successful write. -/
def exCall : ChangeCall :=
  ⟨"d1", StageId.won, 5, 6, Except.ok (), Except.ok none⟩

/-- Folding addition of amounts from an accumulator equals the accumulator
plus the sum of the mapped amounts. -/
theorem foldl_amount_eq_sum (l : List Deal) (a : ℚ) :
    l.foldl (fun sum d => sum + amountOrZero d) a = a + (l.map amountOrZero).sum := by
  induction l generalizing a with
  | nil => simp
  | cons d t ih => simp [ih, add_assoc]

/-- Boolean characterization of the stale predicate. -/
theorem isStale_iff (now : Int) (d : Deal) :
    isStale now d = true ↔
      d.stage_id ≠ StageId.won ∧ 14 ≤ (now - d.last_activity_at).fdiv msPerDay := by
  unfold isStale
  split_ifs with h <;> simp [h]

/-- Claim C1 counterexample: with a deal already in the suspect stage, calling
changeStage with the same stage id still rewrites last_activity_at to the
fresh clock value (1000, different from the stored 0) and still issues one
persistence write, so the call is not a no-op. -/
theorem C1_counterexample :
    exD.stage_id = StageId.suspect
    ∧ (changeStage [exD] "d1" StageId.suspect 1000 1001 (Except.ok ())
        (Except.ok none)).1 = [{ exD with last_activity_at := 1000 }]
    ∧ exD.last_activity_at ≠ 1000
    ∧ (changeStage [exD] "d1" StageId.suspect 1000 1001 (Except.ok ())
        (Except.ok none)).2 = [⟨"d1", StageId.suspect, 1001⟩] := by
  decide

/-- Claim C1 (amended): changeStage performs no same-stage check: called with
the current stage id it still issues exactly one persistence write and, when
the write succeeds, still overwrites last_activity_at with the fresh clock
value; the same-stage suppression exists only in the callers, namely the
stage dropdown of DealCard and the drop handler of StageColumn, which issue
no call at all for the current stage. -/
theorem C1_amended_same_stage_still_mutates_and_writes
    (store : List Deal) (d : Deal) (t1 t2 : Int)
    (w : Except String Unit) (r : Except String (Option (List Deal)))
    (idx : ℕ) (hd : store[idx]? = some d) :
    (changeStage store d.id d.stage_id t1 t2 w r).2 = [⟨d.id, d.stage_id, t2⟩]
    ∧ (w = Except.ok () →
        ((changeStage store d.id d.stage_id t1 t2 w r).1)[idx]?
          = some { d with last_activity_at := t1 })
    ∧ cardStageSelect d d.stage_id = []
    ∧ handleDrop (handleDragStart d) d.stage_id = [] := by
  refine ⟨?_, ?_, ?_, ?_⟩
  · cases w <;> rfl
  · rintro rfl
    simp [changeStage, optimisticUpdate, List.getElem?_map, hd]
  · simp [cardStageSelect]
  · simp [handleDrop, handleDragStart]

/-- Witness for the amended claim C1 at a concrete store. -/
theorem C1_witness :
    (changeStage [exD] exD.id exD.stage_id 1000 1001 (Except.ok ())
        (Except.ok none)).2 = [⟨exD.id, exD.stage_id, 1001⟩] :=
  (C1_amended_same_stage_still_mutates_and_writes [exD] exD 1000 1001
    (Except.ok ()) (Except.ok none) 0 rfl).1

/-- Claim C2: when the persistence write of a changeStage call fails and the
subsequent fetch returns rows, the resulting deal store is exactly the result
of a fresh reload, independent of the store the reload is applied to: the
optimistic mutation is fully discarded, not selectively reverted. -/
theorem C2_failed_write_full_reload (store : List Deal) (dealId : String)
    (s : StageId) (t1 t2 : Int) (msg : String) (rows : Option (List Deal))
    (other : List Deal) :
    (changeStage store dealId s t1 t2 (Except.error msg) (Except.ok rows)).1
      = applyFetch other (Except.ok rows)
    ∧ (changeStage store dealId s t1 t2 (Except.error msg) (Except.ok rows)).1
      = rows.getD [] := by
  exact ⟨rfl, rfl⟩

/-- Claim C3 counterexample: the optimistic mutation stamps the deal with the
first clock reading (1000) while the persistence write carries a second,
later clock reading (1001), so the write is not issued with the same
timestamp as the local mutation. -/
theorem C3_counterexample :
    ((changeStage [exD] "d1" StageId.won 1000 1001 (Except.ok ())
        (Except.ok none)).1).map Deal.last_activity_at = [1000]
    ∧ ((changeStage [exD] "d1" StageId.won 1000 1001 (Except.ok ())
        (Except.ok none)).2).map WriteReq.last_activity_at = [1001]
    ∧ (1000 : Int) ≠ 1001 := by
  decide

/-- Claim C3 (amended): after a successful changeStage the stored deal has the
new stage id and last_activity_at equal to the clock value read in the
optimistic phase; the persistence write carries the same new stage id but its
own second clock reading, which need not equal the optimistic timestamp. -/
theorem C3_amended_success_semantics
    (store : List Deal) (d : Deal) (s : StageId) (t1 t2 : Int)
    (r : Except String (Option (List Deal))) (idx : ℕ)
    (hd : store[idx]? = some d) :
    ((changeStage store d.id s t1 t2 (Except.ok ()) r).1)[idx]?
      = some { d with stage_id := s, last_activity_at := t1 }
    ∧ (changeStage store d.id s t1 t2 (Except.ok ()) r).2 = [⟨d.id, s, t2⟩] := by
  constructor
  · simp [changeStage, optimisticUpdate, List.getElem?_map, hd]
  · rfl

/-- Witness for the amended claim C3 at a concrete store. -/
theorem C3_witness :
    ((changeStage [exD] exD.id StageId.won 1000 1001 (Except.ok ())
        (Except.ok none)).1)[0]?
      = some { exD with stage_id := StageId.won, last_activity_at := 1000 } :=
  (C3_amended_success_semantics [exD] exD StageId.won 1000 1001
    (Except.ok none) 0 rfl).1

/-- Claim C4: after any sequence of changeStage calls from any store, every
deal in the store has a stage_id resolving to a stage of the registry; ids
outside the registry are rejected statically, because the StageId type of the
newStageId parameter only contains the seven registry ids. -/
theorem C4_stage_id_in_registry (store : List Deal) (calls : List ChangeCall)
    (d : Deal) (hd : d ∈ runCalls store calls) :
    d.stage_id ∈ STAGES.map Stage.id := by
  cases d.stage_id <;> decide

/-- Witness for claim C4: a deal moved to the won stage by a concrete call
still resolves in the registry. -/
theorem C4_witness :
    ({ exD with stage_id := StageId.won, last_activity_at := 5 } : Deal).stage_id
      ∈ STAGES.map Stage.id :=
  C4_stage_id_in_registry [exD] [exCall]
    { exD with stage_id := StageId.won, last_activity_at := 5 } (by decide)

/-- Claim C8: dropping a deal onto the column of its own current stage makes
zero onStageChange calls; dropping it onto a different column makes exactly
one call carrying the dragged deal id and the target column stage id. The
hypothesis excludes an empty deal id, which the drop handler would discard as
a falsy payload. -/
theorem C8_drop_call_semantics (d : Deal) (target : StageId) (hid : d.id ≠ "") :
    (d.stage_id = target → handleDrop (handleDragStart d) target = [])
    ∧ (d.stage_id ≠ target →
        handleDrop (handleDragStart d) target = [(d.id, target)]) := by
  constructor <;> intro h <;> simp [handleDrop, handleDragStart, h, hid]

/-- Witness for claim C8 at a concrete deal: one call when the target stage
differs, none when it is the current stage. -/
theorem C8_witness :
    handleDrop (handleDragStart exD) StageId.won = [(exD.id, StageId.won)]
    ∧ handleDrop (handleDragStart exD) StageId.suspect = [] :=
  ⟨(C8_drop_call_semantics exD StageId.won (by decide)).2 (by decide),
   (C8_drop_call_semantics exD StageId.suspect (by decide)).1 rfl⟩

/-- Claim C9: a deal is in the stale list exactly when it is in the store,
not in the won stage, and the floor of the day difference between now and its
last activity is at least 14; in particular a suspect-stage deal last active
15 days before the clock value is counted while the identical deal in the won
stage is excluded. -/
theorem C9_stale_characterization :
    (∀ (store : List Deal) (now : Int) (d : Deal),
        d ∈ staleDeals store now ↔
          d ∈ store ∧ d.stage_id ≠ StageId.won ∧
            14 ≤ (now - d.last_activity_at).fdiv msPerDay)
    ∧ exStale15 ∈ staleDeals [exStale15, exStaleWon] exNow
    ∧ exStaleWon ∉ staleDeals [exStale15, exStaleWon] exNow := by
  refine ⟨?_, ?_, ?_⟩
  · intro store now d
    simp [staleDeals, List.mem_filter, isStale_iff, and_assoc]
  · decide
  · decide

/-- The six non-won stages, computed from the registry. -/
theorem nonWonStages_eq :
    nonWonStages =
      [⟨StageId.suspect, "Suspect", 1, "stage-suspect"⟩,
       ⟨StageId.prospect, "Prospect", 2, "stage-prospect"⟩,
       ⟨StageId.afspraak, "Afspraak", 3, "stage-afspraak"⟩,
       ⟨StageId.voorstel, "Voorstel", 4, "stage-voorstel"⟩,
       ⟨StageId.volgende, "Volgende ronde", 5, "stage-volgende"⟩,
       ⟨StageId.decision, "Decision making", 6, "stage-decision"⟩] := by
  decide

/-- Math.round is bounded above by its argument plus one half. -/
theorem jsRound_le (x : ℚ) : (jsRound x : ℚ) ≤ x + 1 / 2 :=
  Int.floor_le _

/-- Math.round exceeds its argument minus one half. -/
theorem jsRound_gt (x : ℚ) : x - 1 / 2 < (jsRound x : ℚ) := by
  have h := Int.lt_floor_add_one (x + 1 / 2)
  unfold jsRound
  push_cast at h ⊢
  linarith

/-- The per-stage counts over the six non-won stages partition the non-won
deal count: every deal is typed with one of the seven registry stage ids. -/
theorem count_partition (store : List Deal) :
    stageCount store StageId.suspect + stageCount store StageId.prospect
      + stageCount store StageId.afspraak + stageCount store StageId.voorstel
      + stageCount store StageId.volgende + stageCount store StageId.decision
      = totalDeals store := by
  induction store with
  | nil => simp [stageCount, totalDeals]
  | cons d t ih =>
    cases hc : d.stage_id <;>
      simp [stageCount, totalDeals, List.filter_cons, hc] at ih ⊢ <;> omega

/-- With at least one non-won deal, the funnel percentages are the rounded
shares of the six non-won stages, in registry order. -/
theorem funnelData_percentages (store : List Deal) (hT : 0 < totalDeals store) :
    (funnelData store).map FunnelEntry.percentage =
      [jsRound ((stageCount store StageId.suspect : ℚ) / (totalDeals store : ℚ) * 100),
       jsRound ((stageCount store StageId.prospect : ℚ) / (totalDeals store : ℚ) * 100),
       jsRound ((stageCount store StageId.afspraak : ℚ) / (totalDeals store : ℚ) * 100),
       jsRound ((stageCount store StageId.voorstel : ℚ) / (totalDeals store : ℚ) * 100),
       jsRound ((stageCount store StageId.volgende : ℚ) / (totalDeals store : ℚ) * 100),
       jsRound ((stageCount store StageId.decision : ℚ) / (totalDeals store : ℚ) * 100)] := by
  simp [funnelData, nonWonStages_eq, hT]

/-- Rounding one sixth of 100: Math.round of 50 over 3 is 17. -/
theorem jsRound_one_sixth : jsRound ((50 : ℚ) / 3) = 17 := by
  unfold jsRound
  rw [show (50 : ℚ) / 3 + 1 / 2 = 103 / 6 by norm_num]
  rw [Int.floor_eq_iff]
  constructor <;> norm_num

/-- Six rounded values whose exact arguments sum to 100 have an integer sum
within 3 of 100. -/
theorem sum6_round_bound (x1 x2 x3 x4 x5 x6 : ℚ)
    (hsum : x1 + x2 + x3 + x4 + x5 + x6 = 100) :
    |jsRound x1 + (jsRound x2 + (jsRound x3 + (jsRound x4
      + (jsRound x5 + jsRound x6)))) - 100| ≤ 3 := by
  have hle : ((jsRound x1 + (jsRound x2 + (jsRound x3 + (jsRound x4
      + (jsRound x5 + jsRound x6)))) : ℤ) : ℚ) ≤ 103 := by
    push_cast
    linarith [jsRound_le x1, jsRound_le x2, jsRound_le x3, jsRound_le x4,
      jsRound_le x5, jsRound_le x6]
  have hgt : (97 : ℚ) < ((jsRound x1 + (jsRound x2 + (jsRound x3 + (jsRound x4
      + (jsRound x5 + jsRound x6)))) : ℤ) : ℚ) := by
    push_cast
    linarith [jsRound_gt x1, jsRound_gt x2, jsRound_gt x3, jsRound_gt x4,
      jsRound_gt x5, jsRound_gt x6]
  have hle2 : jsRound x1 + (jsRound x2 + (jsRound x3 + (jsRound x4
      + (jsRound x5 + jsRound x6)))) ≤ 103 := by exact_mod_cast hle
  have hgt2 : (97 : ℤ) < jsRound x1 + (jsRound x2 + (jsRound x3 + (jsRound x4
      + (jsRound x5 + jsRound x6)))) := by exact_mod_cast hgt
  rw [abs_le]
  omega

/-- Claim C5 counterexample: with six non-won deals, one in each non-won
stage, every funnel percentage is Math.round of 100 over 6, namely 17, so
the percentages sum to 102, which misses 100 by more than the claimed
rounding error of at most 1. -/
theorem C5_counterexample :
    0 < totalDeals ex6
    ∧ ((funnelData ex6).map FunnelEntry.percentage).sum = 102
    ∧ ¬(|((funnelData ex6).map FunnelEntry.percentage).sum - 100| ≤ 1) := by
  have hT : 0 < totalDeals ex6 := by decide
  have h1 : (funnelData ex6).map FunnelEntry.percentage
      = [17, 17, 17, 17, 17, 17] := by
    rw [funnelData_percentages ex6 hT]
    norm_num [show stageCount ex6 StageId.suspect = 1 from by decide,
      show stageCount ex6 StageId.prospect = 1 from by decide,
      show stageCount ex6 StageId.afspraak = 1 from by decide,
      show stageCount ex6 StageId.voorstel = 1 from by decide,
      show stageCount ex6 StageId.volgende = 1 from by decide,
      show stageCount ex6 StageId.decision = 1 from by decide,
      show totalDeals ex6 = 6 from by decide, jsRound_one_sixth]
  refine ⟨hT, ?_, ?_⟩ <;> rw [h1] <;> decide

/-- Claim C5 (amended): each non-won stage percentage is Math.round of 100
times its count over the non-won total, and is 0 when that total is 0; but
the rounded percentages are only guaranteed to sum to 100 within a drift of
3, half the number of non-won stages, not within 1. -/
theorem C5_amended (store : List Deal) :
    (totalDeals store = 0 → ∀ e ∈ funnelData store, e.percentage = 0)
    ∧ (0 < totalDeals store → ∀ e ∈ funnelData store,
        e.percentage
          = jsRound (100 * (stageCount store e.id : ℚ) / (totalDeals store : ℚ)))
    ∧ (0 < totalDeals store →
        |((funnelData store).map FunnelEntry.percentage).sum - 100| ≤ 3) := by
  refine ⟨?_, ?_, ?_⟩
  · intro h0 e he
    obtain ⟨st, _, rfl⟩ := List.mem_map.mp he
    simp [h0]
  · intro hT e he
    obtain ⟨st, _, rfl⟩ := List.mem_map.mp he
    simp only [hT, if_pos]
    congr 1
    ring
  · intro hT
    have hTQ : (0 : ℚ) < (totalDeals store : ℚ) := by exact_mod_cast hT
    have hTne : (totalDeals store : ℚ) ≠ 0 := ne_of_gt hTQ
    have hcast : (stageCount store StageId.suspect : ℚ)
        + (stageCount store StageId.prospect : ℚ)
        + (stageCount store StageId.afspraak : ℚ)
        + (stageCount store StageId.voorstel : ℚ)
        + (stageCount store StageId.volgende : ℚ)
        + (stageCount store StageId.decision : ℚ)
        = (totalDeals store : ℚ) := by
      exact_mod_cast count_partition store
    have hxsum :
        (stageCount store StageId.suspect : ℚ) / (totalDeals store : ℚ) * 100
        + (stageCount store StageId.prospect : ℚ) / (totalDeals store : ℚ) * 100
        + (stageCount store StageId.afspraak : ℚ) / (totalDeals store : ℚ) * 100
        + (stageCount store StageId.voorstel : ℚ) / (totalDeals store : ℚ) * 100
        + (stageCount store StageId.volgende : ℚ) / (totalDeals store : ℚ) * 100
        + (stageCount store StageId.decision : ℚ) / (totalDeals store : ℚ) * 100
        = 100 := by
      field_simp
      linarith [hcast]
    rw [funnelData_percentages store hT]
    simp only [List.sum_cons, List.sum_nil, add_zero]
    exact sum6_round_bound _ _ _ _ _ _ hxsum

/-- Witness for the amended claim C5: the six-deal store satisfies the drift
bound of 3. -/
theorem C5_witness :
    |((funnelData ex6).map FunnelEntry.percentage).sum - 100| ≤ 3 :=
  (C5_amended ex6).2.2 (by decide)

/-- Claim C6 counterexample: the whitespace-only query of a single space is a
nonempty (truthy) string, so the filter runs and drops a deal whose
organization contains no space; the full input is not returned unchanged. -/
theorem C6_counterexample :
    " ".toList ≠ ([] : List Char)
    ∧ (∀ c ∈ " ".toList, c.isWhitespace)
    ∧ filteredDeals [exD] " ".toList = [] := by
  refine ⟨by decide, by decide, by decide⟩

/-- Claim C6 (amended): the empty query returns the full input unchanged; any
nonempty query, a whitespace-only one included, filters the list, keeping
order (the result is a sublist), and a deal is kept exactly when the
lowercased query occurs as a substring of its lowercased organization. -/
theorem C6_amended (store : List Deal) (query : List Char) (hq : query ≠ []) :
    filteredDeals store [] = store
    ∧ (filteredDeals store query).Sublist store
    ∧ (∀ d, d ∈ filteredDeals store query ↔
        d ∈ store ∧
          includesSub (d.organization.toList.map Char.toLower)
            (query.map Char.toLower) = true) := by
  refine ⟨rfl, ?_, ?_⟩
  · simp only [filteredDeals, hq, if_neg]
    exact List.filter_sublist _
  · intro d
    simp [filteredDeals, hq, List.mem_filter]

/-- Witness for the amended claim C6: the lowercase query acme matches the
organization ACME Corp. -/
theorem C6_witness :
    exAcmeCorp ∈ filteredDeals [exAcmeCorp] "acme".toList :=
  ((C6_amended [exAcmeCorp] "acme".toList (by decide)).2.2 exAcmeCorp).mpr
    ⟨by decide, by decide⟩

/-- Claim C7: the sum over all seven stages of the per-stage value totals
equals the pipeline value plus the won value; a missing amount contributes 0
to every sum. -/
theorem C7_stage_totals_partition (store : List Deal) :
    ((STAGES.map fun st => totalValue (dealsByStage store st.id)).sum)
      = pipelineValue store + wonValue store := by
  have hfold : ∀ l : List Deal,
      l.foldl (fun sum d => sum + amountOrZero d) 0 = (l.map amountOrZero).sum :=
    fun l => by simpa using foldl_amount_eq_sum l 0
  induction store with
  | nil => simp [STAGES, totalValue, dealsByStage, pipelineValue, wonValue]
  | cons d t ih =>
    cases hc : d.stage_id <;>
      simp [totalValue, dealsByStage, pipelineValue, wonValue, hfold, STAGES,
        List.filter_cons, hc] at ih ⊢ <;>
      linarith [ih]

/-- Claim C10: the optimistic phase preserves the store length, leaves every
deal whose id differs from the target id unchanged at its position, rewrites
a deal with the target id only in its stage_id and last_activity_at fields
(all other fields inherited unchanged), and leaves the whole store unchanged
when no deal carries the target id. -/
theorem C10_optimistic_frame (store : List Deal) (dealId : String)
    (s : StageId) (t : Int) :
    (optimisticUpdate store dealId s t).length = store.length
    ∧ (∀ (idx : ℕ) (d : Deal), store[idx]? = some d → d.id ≠ dealId →
        (optimisticUpdate store dealId s t)[idx]? = some d)
    ∧ (∀ (idx : ℕ) (d : Deal), store[idx]? = some d → d.id = dealId →
        (optimisticUpdate store dealId s t)[idx]?
          = some { d with stage_id := s, last_activity_at := t })
    ∧ ((∀ d ∈ store, d.id ≠ dealId) →
        optimisticUpdate store dealId s t = store) := by
  refine ⟨?_, ?_, ?_, ?_⟩
  · simp [optimisticUpdate]
  · intro idx d hd hne
    simp [optimisticUpdate, List.getElem?_map, hd, hne]
  · intro idx d hd heq
    simp [optimisticUpdate, List.getElem?_map, hd, heq]
  · intro hall
    unfold optimisticUpdate
    have h2 : store.map (fun deal =>
        if deal.id = dealId then
          { deal with stage_id := s, last_activity_at := t }
        else deal) = store.map id :=
      List.map_congr_left (fun d hdmem => by simp [hall d hdmem])
    simpa using h2

/-- Witness for claim C10 at a concrete two-deal store: the non-matching deal
is untouched and the matching deal changes only the two fields. -/
theorem C10_witness :
    (optimisticUpdate [exD, exD2] "d2" StageId.won 7)[0]? = some exD
    ∧ (optimisticUpdate [exD, exD2] "d2" StageId.won 7)[1]?
        = some { exD2 with stage_id := StageId.won, last_activity_at := 7 } :=
  ⟨(C10_optimistic_frame [exD, exD2] "d2" StageId.won 7).2.1 0 exD rfl
     (by decide),
   (C10_optimistic_frame [exD, exD2] "d2" StageId.won 7).2.2.1 1 exD2 rfl
     (by decide)⟩

end SalesPipeline
